import Mathlib

/-!
Verification of `src/manual_sine_wave.py` (class `DynamicMultiChannelSineGenerator`).

The Python class keeps per-channel `frequencies`/`amplitudes` lists, a channel
count `num_channels`, a device-resolved `available_channels` and a `sample_rate`,
and renders sine blocks with `generate_chunk`.  We embed the state as a Lean
structure over real numbers; Python ints that index lists are modelled as `Int`
(Python's comparison `0 <= channel < num_channels` admits negative arguments),
list assignment that can raise `IndexError` is modelled with `Option`, and the
external device query (`sd.query_devices`) is modelled by an oracle argument
`dev : Option Nat` (`some dmax` = query succeeded reporting `dmax` max output
channels, `none` = query raised).
-/

namespace SineGen

/-- State of `DynamicMultiChannelSineGenerator`: the fields assigned in
`__init__` / `set_channels` that the rendering and update paths read. -/
structure Store where
  num_channels : Nat
  frequencies : List ℝ
  amplitudes : List ℝ
  available_channels : Nat
  sample_rate : Nat

/-- Embeds `get_max_output_channels` together with its logging: on success it
returns `min(device_info['max_output_channels'], self.num_channels)` and prints
nothing (`false`); on any exception it prints the fallback warning (`true`) and
returns `2`.  The device query outcome is the oracle `dev`. -/
def get_max_output_channels_log (dev : Option Nat) (num_channels : Nat) :
    Nat × Bool :=
  match dev with
  | some dmax => (min dmax num_channels, false)
  | none => (2, true)

/-- The value returned by `get_max_output_channels` (dropping the log flag). -/
def get_max_output_channels (dev : Option Nat) (num_channels : Nat) : Nat :=
  (get_max_output_channels_log dev num_channels).1

/-- Embeds `set_channels`: sets `num_channels`, resets `frequencies` to
`[440] * num_channels` and `amplitudes` to `[0.5] * num_channels`, then
recomputes `available_channels` from the device query. -/
noncomputable def set_channels (s : Store) (dev : Option Nat) (m : Nat) :
    Store :=
  { num_channels := m
    frequencies := List.replicate m (440 : ℝ)
    amplitudes := List.replicate m (1 / 2 : ℝ)
    available_channels := get_max_output_channels dev m
    sample_rate := s.sample_rate }

/-- Embeds `__init__(initial_channels, sample_rate)`: it stores `sample_rate`
and calls `set_channels(initial_channels)`. -/
noncomputable def mk (initial_channels : Nat) (sample_rate : Nat)
    (dev : Option Nat) : Store :=
  set_channels
    { num_channels := 0, frequencies := [], amplitudes := [],
      available_channels := 0, sample_rate := sample_rate }
    dev initial_channels

/-- Embeds `generate_chunk(num_frames)`:
`t = np.arange(num_frames) / self.sample_rate` (so `t[f] = f / sample_rate`,
restarting at `0` in every call) and
`chunk[:, i] = self.amplitudes[i] * np.sin(2 * np.pi * self.frequencies[i] * t)`
for `i` in `range(self.available_channels)`.  The list accesses
`self.amplitudes[i]` / `self.frequencies[i]` raise `IndexError` exactly when
some `i < available_channels` is out of range of either list, i.e. when
`available_channels` exceeds either length; `none` models that exception. -/
noncomputable def generate_chunk (s : Store) (num_frames : Nat) :
    Option (List (List ℝ)) :=
  if s.available_channels ≤ min s.frequencies.length s.amplitudes.length then
    some ((List.range num_frames).map fun (f : Nat) =>
      (List.range s.available_channels).map fun (i : Nat) =>
        s.amplitudes.getD i 0 *
          Real.sin (2 * Real.pi * s.frequencies.getD i 0 *
            ((f : ℝ) / (s.sample_rate : ℝ))))
  else
    none

/-- Written from the spec's words for comparison with `generate_chunk`
(section 4.2 of the spec):
`sample[f][c] = amplitude[c] * sin(2π * frequency[c] * (startFrameIndex + f) / sampleRate)`
with time derived from the absolute running frame counter `startFrameIndex`. -/
noncomputable def render_spec (freqs amps : List ℝ) (avail : Nat)
    (startFrameIndex num_frames sr : Nat) : List (List ℝ) :=
  (List.range num_frames).map fun (f : Nat) =>
    (List.range avail).map fun (c : Nat) =>
      amps.getD c 0 *
        Real.sin (2 * Real.pi * freqs.getD c 0 *
          (((startFrameIndex : ℝ) + (f : ℝ)) / (sr : ℝ)))

/-- Python list assignment `l[i] = v` for `0 ≤ i`: in place update, raising
`IndexError` (`none`) when `i` is not below the length. -/
def listSet (l : List ℝ) (i : Nat) (v : ℝ) : Option (List ℝ) :=
  if i < l.length then some (l.set i v) else none

/-- Embeds `set_frequency(channel, frequency)`: guarded by
`0 <= channel < self.num_channels`; inside the guard the assignment
`self.frequencies[channel] = frequency` can still raise `IndexError` when the
stored list is shorter than `num_channels`. -/
def set_frequency (s : Store) (channel : Int) (frequency : ℝ) :
    Option Store :=
  if 0 ≤ channel ∧ channel < (s.num_channels : Int) then
    match listSet s.frequencies channel.toNat frequency with
    | some l => some { s with frequencies := l }
    | none => none
  else
    some s

/-- Embeds `set_amplitude(channel, amplitude)`, symmetric to
`set_frequency`. -/
def set_amplitude (s : Store) (channel : Int) (amplitude : ℝ) :
    Option Store :=
  if 0 ≤ channel ∧ channel < (s.num_channels : Int) then
    match listSet s.amplitudes channel.toNat amplitude with
    | some l => some { s with amplitudes := l }
    | none => none
  else
    some s

/-- Embeds `update_channel(channel, frequency=None, amplitude=None)`: inside
the same guard, assigns each field that is not `None`. -/
def update_channel (s : Store) (channel : Int) (frequency : Option ℝ)
    (amplitude : Option ℝ) : Option Store :=
  if 0 ≤ channel ∧ channel < (s.num_channels : Int) then
    match (match frequency with
           | some f => listSet s.frequencies channel.toNat f
           | none => some s.frequencies) with
    | none => none
    | some fl =>
      match (match amplitude with
             | some a => listSet s.amplitudes channel.toNat a
             | none => some s.amplitudes) with
      | none => none
      | some al => some { s with frequencies := fl, amplitudes := al }
  else
    some s

/-- Embeds `update_all_channels(frequencies=None, amplitudes=None)`: each
provided sequence replaces the stored one after the Python slice
`[:self.num_channels]`, which is `List.take num_channels`. -/
def update_all_channels (s : Store) (frequencies : Option (List ℝ))
    (amplitudes : Option (List ℝ)) : Store :=
  let s1 :=
    match frequencies with
    | some fs => { s with frequencies := fs.take s.num_channels }
    | none => s
  match amplitudes with
  | some as_ => { s1 with amplitudes := as_.take s1.num_channels }
  | none => s1

/-- The dictionary returned by `get_channel_info` (value view: the scalar
fields and the current contents of the two lists). -/
structure Info where
  num_channels : Nat
  available_channels : Nat
  frequencies : List ℝ
  amplitudes : List ℝ

/-- Embeds `get_channel_info`, read at the moment of the call: the dictionary
holds the scalars and the lists' current contents.  (Aliasing of the returned
lists is modelled separately in namespace `PyRef`.) -/
def get_channel_info (s : Store) : Info :=
  { num_channels := s.num_channels
    available_channels := s.available_channels
    frequencies := s.frequencies
    amplitudes := s.amplitudes }

/-!
Reference-semantics model for the aliasing behaviour of `get_channel_info`.
In Python, `self.frequencies` and `self.amplitudes` are references to heap
list objects; `get_channel_info` puts those very references into the returned
dictionary, while `set_frequency` / `set_amplitude` / `update_channel` mutate
the pointed-to list in place.  We model a heap of list objects addressed by
natural-number references.
-/

namespace PyRef

/-- A reference to a Python list object. -/
abbrev Ref := Nat

/-- The heap of list objects: contents of each reference. -/
structure Heap where
  mem : Ref → List ℝ

/-- Overwrite the list object at reference `r` (in-place list mutation). -/
def Heap.write (h : Heap) (r : Ref) (l : List ℝ) : Heap :=
  { mem := fun r2 => if r2 = r then l else h.mem r2 }

/-- Generator state with the two lists held by reference, as in Python. -/
structure PStore where
  num_channels : Nat
  available_channels : Nat
  freqRef : Ref
  ampRef : Ref

/-- The dictionary built by `get_channel_info`: the scalars are copied values,
but `'frequencies'` and `'amplitudes'` are the references stored in `self`. -/
structure PInfo where
  num_channels : Nat
  available_channels : Nat
  freqRef : Ref
  ampRef : Ref

/-- Embeds `get_channel_info` under reference semantics: the returned dict
holds `self.frequencies` and `self.amplitudes` themselves (no copy is made in
the source). -/
def get_channel_info (s : PStore) : PInfo :=
  { num_channels := s.num_channels
    available_channels := s.available_channels
    freqRef := s.freqRef
    ampRef := s.ampRef }

/-- Embeds `set_frequency` under reference semantics: inside the index guard,
`self.frequencies[channel] = frequency` mutates the heap object at
`s.freqRef` in place (raising `IndexError`, modelled `none`, when the index is
not below the list's length); the store itself, holding only references, is
unchanged. -/
def set_frequency (h : Heap) (s : PStore) (channel : Int) (frequency : ℝ) :
    Option Heap :=
  if 0 ≤ channel ∧ channel < (s.num_channels : Int) then
    if channel.toNat < (h.mem s.freqRef).length then
      some (h.write s.freqRef ((h.mem s.freqRef).set channel.toNat frequency))
    else
      none
  else
    some h

end PyRef

/-- C8: whenever the device channel query fails, `get_max_output_channels`
returns the fixed fallback value 2 and logs the warning, regardless of the
requested channel count; the failure is absorbed (the function returns a plain
value, never a failure result). -/
theorem fallback_on_query_failure (n : Nat) :
    get_max_output_channels_log none n = (2, true) ∧
    get_max_output_channels none n = 2 :=
  ⟨rfl, rfl⟩

/-- C9: `set_channels m` yields `num_channels = m`, every one of the `m`
frequencies reset to the default 440 and every amplitude reset to the default
0.5, and on a successful device query reporting `dmax`,
`available_channels = min m dmax ≤ m`. -/
theorem set_channels_resets_state (s : Store) (dmax m c : Nat) (hc : c < m) :
    (set_channels s (some dmax) m).num_channels = m ∧
    (set_channels s (some dmax) m).frequencies.length = m ∧
    (set_channels s (some dmax) m).amplitudes.length = m ∧
    (set_channels s (some dmax) m).frequencies.getD c 0 = 440 ∧
    (set_channels s (some dmax) m).amplitudes.getD c 0 = 1 / 2 ∧
    (set_channels s (some dmax) m).available_channels = min m dmax ∧
    (set_channels s (some dmax) m).available_channels ≤ m := by
  refine ⟨rfl, by simp [set_channels], by simp [set_channels], ?_, ?_, ?_, ?_⟩
  · simp [set_channels, List.getD_eq_getElem, hc]
  · simp [set_channels, List.getD_eq_getElem, hc]
  · simp [set_channels, get_max_output_channels, get_max_output_channels_log,
      Nat.min_comm]
  · simp [set_channels, get_max_output_channels, get_max_output_channels_log]

/-- C9 witness: the reset behaviour at the spec's concrete scenario
(`setChannels 2` with the device reporting 16, channel 1). -/
theorem set_channels_resets_state_witness :
    (1 < 2) ∧
    ((set_channels ⟨8, List.replicate 8 440, List.replicate 8 (1 / 2), 8,
        44100⟩ (some 16) 2).num_channels = 2 ∧
      (set_channels ⟨8, List.replicate 8 440, List.replicate 8 (1 / 2), 8,
        44100⟩ (some 16) 2).frequencies.length = 2 ∧
      (set_channels ⟨8, List.replicate 8 440, List.replicate 8 (1 / 2), 8,
        44100⟩ (some 16) 2).amplitudes.length = 2 ∧
      (set_channels ⟨8, List.replicate 8 440, List.replicate 8 (1 / 2), 8,
        44100⟩ (some 16) 2).frequencies.getD 1 0 = 440 ∧
      (set_channels ⟨8, List.replicate 8 440, List.replicate 8 (1 / 2), 8,
        44100⟩ (some 16) 2).amplitudes.getD 1 0 = 1 / 2 ∧
      (set_channels ⟨8, List.replicate 8 440, List.replicate 8 (1 / 2), 8,
        44100⟩ (some 16) 2).available_channels = min 2 16 ∧
      (set_channels ⟨8, List.replicate 8 440, List.replicate 8 (1 / 2), 8,
        44100⟩ (some 16) 2).available_channels ≤ 2) :=
  ⟨by decide,
    set_channels_resets_state
      ⟨8, List.replicate 8 440, List.replicate 8 (1 / 2), 8, 44100⟩
      16 2 1 (by decide)⟩

/-- C2 counterexample: on a store with `num_channels = 2` and frequencies
`[440, 440]`, calling `update_all_channels` with the one-element sequence
`[100]` does NOT keep the prior value at index 1: the stored list becomes
`[100]`, of length 1 ≠ 2, not `[100, 440]` as the claim requires. -/
theorem update_all_channels_short_input_cx :
    (update_all_channels ⟨2, [440, 440], [1 / 2, 1 / 2], 2, 44100⟩
        (some [100]) none).frequencies = [100] ∧
    (update_all_channels ⟨2, [440, 440], [1 / 2, 1 / 2], 2, 44100⟩
        (some [100]) none).frequencies ≠ [100, 440] ∧
    (update_all_channels ⟨2, [440, 440], [1 / 2, 1 / 2], 2, 44100⟩
        (some [100]) none).frequencies.length ≠
      (update_all_channels ⟨2, [440, 440], [1 / 2, 1 / 2], 2, 44100⟩
        (some [100]) none).num_channels := by
  refine ⟨rfl, by simp [update_all_channels], by simp [update_all_channels]⟩

/-- C2 amended: each provided sequence wholly replaces the stored one after
truncation to the first `num_channels` entries (`List.take`); a sequence
shorter than `num_channels` therefore becomes the stored sequence itself,
discarding prior values at higher indices and shrinking the stored length.
Omitted sequences and the scalar fields are unchanged. -/
theorem update_all_channels_take (s : Store) (fs as_ : List ℝ) :
    (update_all_channels s (some fs) (some as_)).frequencies =
      fs.take s.num_channels ∧
    (update_all_channels s (some fs) (some as_)).amplitudes =
      as_.take s.num_channels ∧
    (update_all_channels s (some fs) none).frequencies =
      fs.take s.num_channels ∧
    (update_all_channels s (some fs) none).amplitudes = s.amplitudes ∧
    (update_all_channels s none (some as_)).frequencies = s.frequencies ∧
    (update_all_channels s none (some as_)).amplitudes =
      as_.take s.num_channels ∧
    update_all_channels s none none = s ∧
    (update_all_channels s (some fs) (some as_)).num_channels =
      s.num_channels ∧
    (update_all_channels s (some fs) (some as_)).available_channels =
      s.available_channels :=
  ⟨rfl, rfl, rfl, rfl, rfl, rfl, rfl, rfl, rfl⟩

/-- C3 counterexample: `set_channels 1` when the device query fails sets
`available_channels` to the fallback 2, violating the claimed invariant
`available_channels ≤ num_channels` (2 > 1). -/
theorem set_channels_fallback_cx :
    (set_channels (mk 16 44100 (some 16)) none 1).num_channels = 1 ∧
    (set_channels (mk 16 44100 (some 16)) none 1).available_channels = 2 ∧
    ¬ ((set_channels (mk 16 44100 (some 16)) none 1).available_channels ≤
        (set_channels (mk 16 44100 (some 16)) none 1).num_channels) :=
  ⟨rfl, rfl, by decide⟩

/-- C3 amended: after construction or `set_channels`, the invariant
`available_channels ≤ num_channels` holds whenever the device query succeeds
(`available_channels = min(deviceMax, num_channels)`); when the query fails,
`available_channels` is the fixed fallback 2, which satisfies the bound only
when `num_channels ≥ 2` (the lower bound `0 ≤ available_channels` always
holds, the counts being naturals). -/
theorem available_channels_bound (s : Store) (dmax m ic sr : Nat) :
    (set_channels s (some dmax) m).available_channels ≤
      (set_channels s (some dmax) m).num_channels ∧
    (mk ic sr (some dmax)).available_channels ≤
      (mk ic sr (some dmax)).num_channels ∧
    (set_channels s none m).available_channels = 2 ∧
    (2 ≤ m →
      (set_channels s none m).available_channels ≤
        (set_channels s none m).num_channels) := by
  refine ⟨?_, ?_, rfl, fun h => h⟩ <;>
    simp [set_channels, mk, get_max_output_channels,
      get_max_output_channels_log]

/-- C3 amended witness: the bounds at concrete inputs (`dmax = 16`, `m = 4`,
construction with 3 channels, sample rate 44100). -/
theorem available_channels_bound_witness :
    (set_channels ⟨1, [440], [1 / 2], 1, 44100⟩
        (some 16) 4).available_channels ≤
      (set_channels ⟨1, [440], [1 / 2], 1, 44100⟩ (some 16) 4).num_channels ∧
    (mk 3 44100 (some 16)).available_channels ≤
      (mk 3 44100 (some 16)).num_channels ∧
    (set_channels ⟨1, [440], [1 / 2], 1, 44100⟩ none 4).available_channels =
      2 ∧
    (2 ≤ 4 →
      (set_channels ⟨1, [440], [1 / 2], 1, 44100⟩
          none 4).available_channels ≤
        (set_channels ⟨1, [440], [1 / 2], 1, 44100⟩ none 4).num_channels) :=
  available_channels_bound ⟨1, [440], [1 / 2], 1, 44100⟩ 16 4 3 44100

/-- C5: after `update_all_channels` with a frequencies sequence strictly
shorter than `num_channels`, the stored sequence is the input itself (its
length, shorter than `num_channels`) while `available_channels` is unchanged;
any subsequent `generate_chunk`, which indexes channels up to
`available_channels`, raises `IndexError` (returns `none`) whenever
`available_channels` exceeds the shortened sequence's length. -/
theorem update_all_channels_short_then_chunk_errors (s : Store)
    (fs : List ℝ) (n : Nat) (h : fs.length < s.num_channels) :
    (update_all_channels s (some fs) none).frequencies = fs ∧
    (update_all_channels s (some fs) none).frequencies.length = fs.length ∧
    (update_all_channels s (some fs) none).available_channels =
      s.available_channels ∧
    (fs.length < s.available_channels →
      generate_chunk (update_all_channels s (some fs) none) n = none) := by
  have htake : fs.take s.num_channels = fs :=
    List.take_of_length_le (Nat.le_of_lt h)
  refine ⟨by simp [update_all_channels, htake], ?_, rfl, ?_⟩
  · simp [update_all_channels, htake]
  · intro hlt
    have hfreq : (update_all_channels s (some fs) none).frequencies = fs := by
      simp [update_all_channels, htake]
    rw [generate_chunk, if_neg]
    rw [hfreq]
    have h1 : min fs.length
        (update_all_channels s (some fs) none).amplitudes.length ≤
        fs.length := Nat.min_le_left _ _
    exact fun hle => absurd (Nat.le_trans hle h1) (Nat.not_le.mpr hlt)

/-- C5 witness: shrinking a 2-channel store's frequencies to `[100]` keeps
`available_channels = 2` and makes `generate_chunk` raise. -/
theorem update_all_channels_short_then_chunk_errors_witness :
    (([100] : List ℝ).length < 2) ∧
    ((update_all_channels ⟨2, [440, 440], [1 / 2, 1 / 2], 2, 44100⟩
        (some [100]) none).frequencies = [100] ∧
      (update_all_channels ⟨2, [440, 440], [1 / 2, 1 / 2], 2, 44100⟩
        (some [100]) none).frequencies.length = ([100] : List ℝ).length ∧
      (update_all_channels ⟨2, [440, 440], [1 / 2, 1 / 2], 2, 44100⟩
        (some [100]) none).available_channels = 2 ∧
      (([100] : List ℝ).length < 2 →
        generate_chunk
          (update_all_channels ⟨2, [440, 440], [1 / 2, 1 / 2], 2, 44100⟩
            (some [100]) none) 64 = none)) :=
  ⟨by simp,
    update_all_channels_short_then_chunk_errors
      ⟨2, [440, 440], [1 / 2, 1 / 2], 2, 44100⟩ [100] 64 (by simp)⟩

/-- C6: for a channel index `c` with `0 ≤ c < num_channels` (and the stored
list of full length, as established by `set_channels`), `set_frequency c f`
succeeds and a following `get_channel_info` reports `frequencies[c] = f`,
every other channel's frequency unchanged, and all amplitudes and scalar
fields unchanged. -/
theorem set_frequency_then_info (s : Store) (c : Int) (f : ℝ)
    (h0 : 0 ≤ c) (h1 : c < (s.num_channels : Int))
    (h2 : c.toNat < s.frequencies.length) :
    ∃ s2, set_frequency s c f = some s2 ∧
      (get_channel_info s2).frequencies.getD c.toNat 0 = f ∧
      (∀ j, j ≠ c.toNat →
        (get_channel_info s2).frequencies.getD j 0 =
          (get_channel_info s).frequencies.getD j 0) ∧
      (get_channel_info s2).amplitudes = (get_channel_info s).amplitudes ∧
      (get_channel_info s2).num_channels = (get_channel_info s).num_channels ∧
      (get_channel_info s2).available_channels =
        (get_channel_info s).available_channels := by
  refine ⟨{ s with frequencies := s.frequencies.set c.toNat f }, ?_, ?_, ?_,
    rfl, rfl, rfl⟩
  · rw [set_frequency, if_pos ⟨h0, h1⟩, listSet, if_pos h2]
  · simp [get_channel_info, List.getD_eq_getElem, h2,
      List.getElem_set_self]
  · intro j hj
    simp [get_channel_info, List.getD]
    rw [List.getElem?_set_ne (fun hEq => hj hEq.symm)]

/-- C6 witness: setting channel 1 of a fresh 2-channel store to 880. -/
theorem set_frequency_then_info_witness :
    (0 ≤ (1 : Int)) ∧ ((1 : Int) < ((2 : Nat) : Int)) ∧
    ((1 : Int).toNat < ([440, 440] : List ℝ).length) ∧
    (∃ s2, set_frequency ⟨2, [440, 440], [1 / 2, 1 / 2], 2, 44100⟩ 1 880 =
        some s2 ∧
      (get_channel_info s2).frequencies.getD (1 : Int).toNat 0 = 880 ∧
      (∀ j, j ≠ (1 : Int).toNat →
        (get_channel_info s2).frequencies.getD j 0 =
          (get_channel_info
            ⟨2, [440, 440], [1 / 2, 1 / 2], 2, 44100⟩).frequencies.getD
            j 0) ∧
      (get_channel_info s2).amplitudes =
        (get_channel_info
          ⟨2, [440, 440], [1 / 2, 1 / 2], 2, 44100⟩).amplitudes ∧
      (get_channel_info s2).num_channels =
        (get_channel_info
          ⟨2, [440, 440], [1 / 2, 1 / 2], 2, 44100⟩).num_channels ∧
      (get_channel_info s2).available_channels =
        (get_channel_info
          ⟨2, [440, 440], [1 / 2, 1 / 2], 2, 44100⟩).available_channels) :=
  ⟨by decide, by decide, by simp,
    set_frequency_then_info ⟨2, [440, 440], [1 / 2, 1 / 2], 2, 44100⟩ 1 880
      (by decide) (by decide) (by simp)⟩

/-- C7: for a channel index outside `[0, num_channels)` — including negative
indices — `set_frequency`, `set_amplitude` and `update_channel` each return
the state unchanged without raising, so `get_channel_info` afterwards reports
exactly the prior state. -/
theorem out_of_range_update_noop (s : Store) (c : Int) (f a : ℝ)
    (fr am : Option ℝ)
    (h : ¬ (0 ≤ c ∧ c < (s.num_channels : Int))) :
    set_frequency s c f = some s ∧
    set_amplitude s c a = some s ∧
    update_channel s c fr am = some s ∧
    (set_frequency s c f).map get_channel_info =
      some (get_channel_info s) ∧
    (set_amplitude s c a).map get_channel_info =
      some (get_channel_info s) ∧
    (update_channel s c fr am).map get_channel_info =
      some (get_channel_info s) := by
  simp [set_frequency, set_amplitude, update_channel, h]

/-- C7 witness: the negative index `-1` on a 2-channel store is a no-op for
all three update operations. -/
theorem out_of_range_update_noop_witness :
    (¬ (0 ≤ (-1 : Int) ∧ (-1 : Int) < ((2 : Nat) : Int))) ∧
    (set_frequency ⟨2, [440, 440], [1 / 2, 1 / 2], 2, 44100⟩ (-1) 880 =
        some ⟨2, [440, 440], [1 / 2, 1 / 2], 2, 44100⟩ ∧
      set_amplitude ⟨2, [440, 440], [1 / 2, 1 / 2], 2, 44100⟩ (-1) 1 =
        some ⟨2, [440, 440], [1 / 2, 1 / 2], 2, 44100⟩ ∧
      update_channel ⟨2, [440, 440], [1 / 2, 1 / 2], 2, 44100⟩ (-1)
          (some 880) (some 1) =
        some ⟨2, [440, 440], [1 / 2, 1 / 2], 2, 44100⟩ ∧
      (set_frequency ⟨2, [440, 440], [1 / 2, 1 / 2], 2, 44100⟩ (-1)
          880).map get_channel_info =
        some (get_channel_info ⟨2, [440, 440], [1 / 2, 1 / 2], 2, 44100⟩) ∧
      (set_amplitude ⟨2, [440, 440], [1 / 2, 1 / 2], 2, 44100⟩ (-1)
          1).map get_channel_info =
        some (get_channel_info ⟨2, [440, 440], [1 / 2, 1 / 2], 2, 44100⟩) ∧
      (update_channel ⟨2, [440, 440], [1 / 2, 1 / 2], 2, 44100⟩ (-1)
          (some 880) (some 1)).map get_channel_info =
        some (get_channel_info ⟨2, [440, 440], [1 / 2, 1 / 2], 2, 44100⟩)) :=
  ⟨by decide,
    out_of_range_update_noop ⟨2, [440, 440], [1 / 2, 1 / 2], 2, 44100⟩ (-1)
      880 1 (some 880) (some 1) (by decide)⟩

/-- C10: `generate_chunk` is deterministic — it depends only on the
frequencies, amplitudes, `available_channels` and `sample_rate` of the state
together with the frame count, so two invocations with identical parameter
state and identical frame arguments produce identical sample blocks (in
particular, differing `num_channels` is irrelevant). -/
theorem generate_chunk_deterministic (s1 s2 : Store) (n1 n2 : Nat)
    (hf : s1.frequencies = s2.frequencies)
    (ha : s1.amplitudes = s2.amplitudes)
    (hc : s1.available_channels = s2.available_channels)
    (hr : s1.sample_rate = s2.sample_rate)
    (hn : n1 = n2) :
    generate_chunk s1 n1 = generate_chunk s2 n2 := by
  rw [generate_chunk, generate_chunk, hf, ha, hc, hr, hn]

/-- C10 witness: two stores agreeing on the rendering parameters but with
different `num_channels` yield the same block for 128 frames. -/
theorem generate_chunk_deterministic_witness :
    generate_chunk ⟨5, [440], [1 / 2], 1, 44100⟩ 128 =
      generate_chunk ⟨7, [440], [1 / 2], 1, 44100⟩ 128 :=
  generate_chunk_deterministic ⟨5, [440], [1 / 2], 1, 44100⟩
    ⟨7, [440], [1 / 2], 1, 44100⟩ 128 128 rfl rfl rfl rfl rfl

/-- C1: `generate_chunk` does not use an absolute running frame counter — it
rebuilds `t = arange(num_frames) / sample_rate` from 0 on every call (and
`audio_callback` passes only the frame count).  Concretely, with one
available channel, frequency 1 Hz, amplitude 1 and sample rate 4, the block
that should start at absolute frame index 1 renders `sin(0) = 0` as its first
sample, while the claimed formula
`amplitude * sin(2π * frequency * (startFrameIndex + f) / sampleRate)` gives
`sin(π/2) = 1`: phase restarts at every block boundary. -/
theorem generate_chunk_ignores_frame_counter :
    generate_chunk ⟨1, [1], [1], 1, 4⟩ 1 = some [[0]] ∧
    render_spec [1] [1] 1 1 1 4 = [[1]] ∧
    generate_chunk ⟨1, [1], [1], 1, 4⟩ 1 ≠
      some (render_spec [1] [1] 1 1 1 4) := by
  have harg : 2 * Real.pi * (1 : ℝ) * (((1 : Nat) : ℝ) + ((0 : Nat) : ℝ)) /
      ((4 : Nat) : ℝ) = Real.pi / 2 := by
    push_cast
    ring
  have h0 : generate_chunk ⟨1, [1], [1], 1, 4⟩ 1 = some [[0]] := by
    rw [generate_chunk, if_pos (by simp)]
    simp [List.range_succ]
  have h1 : render_spec [1] [1] 1 1 1 4 = [[1]] := by
    rw [render_spec]
    simp only [List.range_succ, List.range_zero, List.nil_append,
      List.map_cons, List.map_nil, List.getD_cons_zero, one_mul]
    rw [mul_div_assoc] at harg
    rw [harg, Real.sin_pi_div_two]
  refine ⟨h0, h1, ?_⟩
  rw [h0, h1]
  intro hEq
  have h2 := Option.some.inj hEq
  simp at h2

/-- C4 counterexample: under Python reference semantics, the dict returned by
`get_channel_info` aliases the store's live `frequencies` list (heap
reference 0).  After `set_frequency 0 999`, reading the previously returned
report yields the mutated contents `[999, 440]`, no longer the `[440, 440]`
it held when the report was taken — it is not a point-in-time copy. -/
theorem get_channel_info_alias_cx :
    (PyRef.get_channel_info ⟨2, 2, 0, 1⟩).freqRef = 0 ∧
    (PyRef.Heap.mem
      ⟨fun r => if r = 0 then [440, 440]
        else if r = 1 then [1 / 2, 1 / 2] else []⟩ 0 = [440, 440]) ∧
    PyRef.set_frequency
      ⟨fun r => if r = 0 then [440, 440]
        else if r = 1 then [1 / 2, 1 / 2] else []⟩ ⟨2, 2, 0, 1⟩ 0 999 =
      some (PyRef.Heap.write
        ⟨fun r => if r = 0 then [440, 440]
          else if r = 1 then [1 / 2, 1 / 2] else []⟩ 0 [999, 440]) ∧
    (PyRef.Heap.write
      ⟨fun r => if r = 0 then [440, 440]
        else if r = 1 then [1 / 2, 1 / 2] else []⟩ 0 [999, 440]).mem
      (PyRef.get_channel_info ⟨2, 2, 0, 1⟩).freqRef = [999, 440] ∧
    ([999, 440] : List ℝ) ≠ [440, 440] := by
  refine ⟨rfl, rfl, ?_, rfl, ?_⟩
  · rw [PyRef.set_frequency, if_pos (by decide), if_pos (by norm_num)]
    rfl
  · intro hEq
    have h2 := List.cons.inj hEq
    norm_num at h2

/-- C4 amended: `get_channel_info` returns a live-aliased view, not a copy —
the returned dict holds the very references stored in the generator, so an
in-place mutation such as `set_frequency` performed after the call is visible
when the previously returned report's `frequencies` entry is read (and,
symmetrically, mutating the returned list would mutate the store); only the
two scalar fields are point-in-time values. -/
theorem get_channel_info_live_view (h : PyRef.Heap) (s : PyRef.PStore)
    (c : Int) (f : ℝ) (hc0 : 0 ≤ c) (hc1 : c < (s.num_channels : Int))
    (hlen : c.toNat < (h.mem s.freqRef).length) :
    (PyRef.get_channel_info s).freqRef = s.freqRef ∧
    (PyRef.get_channel_info s).ampRef = s.ampRef ∧
    PyRef.set_frequency h s c f =
      some (h.write s.freqRef ((h.mem s.freqRef).set c.toNat f)) ∧
    (h.write s.freqRef ((h.mem s.freqRef).set c.toNat f)).mem
      (PyRef.get_channel_info s).freqRef =
      (h.mem s.freqRef).set c.toNat f := by
  refine ⟨rfl, rfl, ?_, ?_⟩
  · rw [PyRef.set_frequency, if_pos ⟨hc0, hc1⟩, if_pos hlen]
  · simp [PyRef.Heap.write, PyRef.get_channel_info]

/-- C4 amended witness: the live view observed at a concrete heap and store
(`set_frequency 1 777` on a 2-channel store). -/
theorem get_channel_info_live_view_witness :
    (0 ≤ (1 : Int)) ∧
    ((1 : Int) < (((⟨2, 2, 0, 1⟩ : PyRef.PStore).num_channels : Nat) :
      Int)) ∧
    ((1 : Int).toNat <
      (PyRef.Heap.mem
        ⟨fun r => if r = 0 then [440, 440]
          else if r = 1 then [1 / 2, 1 / 2] else []⟩
        (⟨2, 2, 0, 1⟩ : PyRef.PStore).freqRef).length) ∧
    ((PyRef.get_channel_info ⟨2, 2, 0, 1⟩).freqRef =
      (⟨2, 2, 0, 1⟩ : PyRef.PStore).freqRef ∧
    (PyRef.get_channel_info ⟨2, 2, 0, 1⟩).ampRef =
      (⟨2, 2, 0, 1⟩ : PyRef.PStore).ampRef ∧
    PyRef.set_frequency
      ⟨fun r => if r = 0 then [440, 440]
        else if r = 1 then [1 / 2, 1 / 2] else []⟩ ⟨2, 2, 0, 1⟩ 1 777 =
      some ((⟨fun r => if r = 0 then [440, 440]
        else if r = 1 then [1 / 2, 1 / 2] else []⟩ : PyRef.Heap).write
        (⟨2, 2, 0, 1⟩ : PyRef.PStore).freqRef
        (((⟨fun r => if r = 0 then [440, 440]
          else if r = 1 then [1 / 2, 1 / 2] else []⟩ : PyRef.Heap).mem
          (⟨2, 2, 0, 1⟩ : PyRef.PStore).freqRef).set (1 : Int).toNat 777)) ∧
    ((⟨fun r => if r = 0 then [440, 440]
      else if r = 1 then [1 / 2, 1 / 2] else []⟩ : PyRef.Heap).write
      (⟨2, 2, 0, 1⟩ : PyRef.PStore).freqRef
      (((⟨fun r => if r = 0 then [440, 440]
        else if r = 1 then [1 / 2, 1 / 2] else []⟩ : PyRef.Heap).mem
        (⟨2, 2, 0, 1⟩ : PyRef.PStore).freqRef).set (1 : Int).toNat
        777)).mem (PyRef.get_channel_info ⟨2, 2, 0, 1⟩).freqRef =
      ((⟨fun r => if r = 0 then [440, 440]
        else if r = 1 then [1 / 2, 1 / 2] else []⟩ : PyRef.Heap).mem
        (⟨2, 2, 0, 1⟩ : PyRef.PStore).freqRef).set (1 : Int).toNat 777) :=
  ⟨by decide, by decide, by norm_num,
    get_channel_info_live_view
      ⟨fun r => if r = 0 then [440, 440]
        else if r = 1 then [1 / 2, 1 / 2] else []⟩
      ⟨2, 2, 0, 1⟩ 1 777 (by decide) (by decide) (by norm_num)⟩

end SineGen
